import Mathlib

/-!
Verification of the Deployment Risk Decision Engine.

Shallow embedding of the core logic of the repository:
- `prepare_features` embeds `QualityPredictor.prepare_features`
  (src/ai-models/training/train_quality_model.py, lines 17-52);
- `getRecommendation` embeds `QualityPredictor._get_recommendation` (lines 125-132);
- `qualityPredict` embeds `QualityPredictor.predict` (lines 104-123), with the
  trained classifier abstracted as a pair of functions on feature rows;
- `detect`, `modelPathResult`, `fallbackScore`, `fallbackResultOfScore` embed
  `AnomalyDetector.detect` (src/ai-models/training/train_anomaly_model.py, lines 32-83);
- `fuseDecision` embeds the combined-decision block of `predict_comprehensive`
  (src/ai-models/serving/model_server.py, lines 89-103).

Numeric values are modelled as exact rationals; Python dict records become a
structure of optional rational fields; Python exceptions become `Except`.
-/

/-- Recommendation tier, one of the three string constants used by the code. -/
inductive Tier where
  | AUTO_DEPLOY
  | MANUAL_APPROVAL
  | BLOCK_DEPLOYMENT
deriving DecidableEq, BEq, Repr

/-- Anomaly severity, one of the three string constants used by the code. -/
inductive Severity where
  | LOW
  | MEDIUM
  | HIGH
deriving DecidableEq, BEq, Repr

/-- A metric record: a mapping from metric names to numeric values.  Every
field is optional, mirroring a Python dict / DataFrame row in which any
column may be absent. -/
structure MetricRecord where
  test_pass_rate : Option ℚ := none
  code_coverage : Option ℚ := none
  security_vulnerabilities : Option ℚ := none
  code_complexity : Option ℚ := none
  lines_of_code : Option ℚ := none
  deployment_frequency : Option ℚ := none
  risk_score : Option ℚ := none
deriving DecidableEq, Repr

/-- The fixed, ordered feature row built by `prepare_features`
(train_quality_model.py lines 38-47). -/
structure Features where
  test_pass_rate : ℚ
  code_coverage : ℚ
  security_vulnerabilities : ℚ
  code_complexity : ℚ
  lines_of_code : ℚ
  deployment_frequency : ℚ
  quality_score : ℚ
  risk_score : ℚ
deriving DecidableEq, Repr

/-- Output of `QualityPredictor.predict` (train_quality_model.py lines 119-123). -/
structure QualityResult where
  success_prediction : ℕ
  success_probability : ℚ
  recommendation : Tier
deriving DecidableEq, Repr

/-- Output of `AnomalyDetector.detect` (train_anomaly_model.py lines 57 and 83). -/
structure AnomalyResult where
  is_anomaly : Bool
  severity : Severity
  score : ℚ
deriving DecidableEq, Repr

/-- Output of the comprehensive endpoint (model_server.py lines 98-103). -/
structure FinalDecision where
  quality_prediction : QualityResult
  anomaly_detection : AnomalyResult
  final_recommendation : Tier
  confidence : ℚ
deriving DecidableEq, Repr

/-- `QualityPredictor.prepare_features` (train_quality_model.py lines 17-52):
computes the derived `quality_score` and `risk_score` columns and selects the
fixed feature list.  Looking up a missing column in pandas raises `KeyError`,
modelled by returning `none`. -/
def prepare_features (m : MetricRecord) : Option Features :=
  match m.test_pass_rate, m.code_coverage, m.security_vulnerabilities,
        m.code_complexity, m.lines_of_code, m.deployment_frequency with
  | some tpr, some cc, some sv, some cx, some loc, some dfreq =>
      some { test_pass_rate := tpr
             code_coverage := cc
             security_vulnerabilities := sv
             code_complexity := cx
             lines_of_code := loc
             deployment_frequency := dfreq
             quality_score :=
               0.3 * tpr + 0.25 * cc + 0.25 * (1 - min (sv / 10) 1) +
                 0.2 * (1 - cx / 10)
             risk_score :=
               sv * 0.4 + (1 - tpr) * 30 + (1 - cc) * 20 + cx * 0.1 }
  | _, _, _, _, _, _ => none

/-- `QualityPredictor._get_recommendation` (train_quality_model.py lines 125-132). -/
def getRecommendation (prob : ℚ) : Tier :=
  if prob ≥ 0.85 then Tier.AUTO_DEPLOY
  else if prob ≥ 0.70 then Tier.MANUAL_APPROVAL
  else Tier.BLOCK_DEPLOYMENT

/-- The trained quality classifier, abstracted (spec §6): a class prediction
and a positive-class probability for a feature row. -/
structure Classifier where
  pred : Features → ℕ
  predict_proba : Features → ℚ

/-- Evaluation-time failures of the quality path. -/
inductive QError where
  | modelNotTrained
  | missingFeature
deriving DecidableEq, Repr

/-- `QualityPredictor.predict` (train_quality_model.py lines 104-123): raises
`ValueError("Model not trained...")` when `self.model is None`, otherwise
prepares features and queries the classifier. -/
def qualityPredict (model : Option Classifier) (m : MetricRecord) :
    Except QError QualityResult :=
  match model with
  | none => .error QError.modelNotTrained
  | some clf =>
    match prepare_features m with
    | none => .error QError.missingFeature
    | some X =>
        .ok { success_prediction := clf.pred X
              success_probability := clf.predict_proba X
              recommendation := getRecommendation (clf.predict_proba X) }

/-- Accumulated rule-based anomaly score before and after clipping
(train_anomaly_model.py lines 62-74): field-present-only weighted
contributions, then `np.clip(score, 0.0, 1.0)`. -/
def fallbackScore (m : MetricRecord) : ℚ :=
  let score : ℚ := 0
  let score :=
    match m.security_vulnerabilities with
    | some v => score + min (v / 10) 1 * 0.6
    | none => score
  let score :=
    match m.risk_score with
    | some rs => score + min (rs / 100) 1 * 0.3
    | none => score
  let score :=
    match m.test_pass_rate with
    | some t => score + (1 - t) * 0.1
    | none => score
  min (max score 0) 1

/-- Flag/severity mapping of the rule-based path (train_anomaly_model.py
lines 75-83), applied to the clipped score. -/
def fallbackResultOfScore (score : ℚ) : AnomalyResult :=
  { is_anomaly := decide (score > 0.4)
    severity :=
      if score > 0.75 then Severity.HIGH
      else if score > 0.5 then Severity.MEDIUM
      else Severity.LOW
    score := score }

/-- The whole rule-based fallback branch of `AnomalyDetector.detect`
(train_anomaly_model.py lines 62-83). -/
def ruleBasedFallback (m : MetricRecord) : AnomalyResult :=
  fallbackResultOfScore (fallbackScore m)

/-- Flag/severity mapping of the model-backed path (train_anomaly_model.py
lines 50-57), applied to the classifier probability. -/
def modelPathResult (score : ℚ) : AnomalyResult :=
  { is_anomaly := decide (score > 0.5)
    severity :=
      if score > 0.8 then Severity.HIGH
      else if score > 0.6 then Severity.MEDIUM
      else Severity.LOW
    score := score }

/-- The anomaly classifier, abstracted: positive-class probability for a raw
record, or a failure (any Python exception, carried as its message). -/
def AnomalyModel : Type := MetricRecord → Except String ℚ

/-- `AnomalyDetector.detect` (train_anomaly_model.py lines 32-83): use the
model when loaded and its invocation succeeds, otherwise (no model, or any
exception from `predict_proba`) the rule-based fallback. -/
def detect (model : Option AnomalyModel) (m : MetricRecord) : AnomalyResult :=
  match model with
  | some f =>
    match f m with
    | .ok score => modelPathResult score
    | .error _ => ruleBasedFallback m
  | none => ruleBasedFallback m

/-- Combined-decision block of `predict_comprehensive`
(model_server.py lines 89-103): baseline from the quality recommendation,
two independent anomaly escalation overrides, confidence from the quality
probability. -/
def fuseDecision (quality_result : QualityResult) (anomaly_result : AnomalyResult) :
    FinalDecision :=
  let final0 := quality_result.recommendation
  let final1 :=
    if anomaly_result.is_anomaly &&
        (anomaly_result.severity == Severity.MEDIUM ||
          anomaly_result.severity == Severity.HIGH) then
      Tier.MANUAL_APPROVAL
    else final0
  let final2 :=
    if anomaly_result.is_anomaly && (anomaly_result.severity == Severity.HIGH) then
      Tier.BLOCK_DEPLOYMENT
    else final1
  { quality_prediction := quality_result
    anomaly_detection := anomaly_result
    final_recommendation := final2
    confidence := quality_result.success_probability }

/-- The whole `/predict/comprehensive` computation (model_server.py lines
79-103): quality prediction, anomaly detection, fusion. -/
def predict_comprehensive (qmodel : Option Classifier) (amodel : Option AnomalyModel)
    (m : MetricRecord) : Except QError FinalDecision :=
  match qualityPredict qmodel m with
  | .error e => .error e
  | .ok q => .ok (fuseDecision q (detect amodel m))

/-- Strict risk ordering on tiers, AUTO_DEPLOY < MANUAL_APPROVAL < BLOCK_DEPLOYMENT. -/
def tierRank : Tier → ℕ
  | Tier.AUTO_DEPLOY => 0
  | Tier.MANUAL_APPROVAL => 1
  | Tier.BLOCK_DEPLOYMENT => 2

/-- Escalation rules exactly as the specification words them (§4.4): baseline,
then MANUAL_APPROVAL on a MEDIUM-or-HIGH anomaly, then BLOCK_DEPLOYMENT on a
HIGH anomaly, both conditions evaluated independently. -/
def specFuseRecommendation (qrec : Tier) (a : AnomalyResult) : Tier :=
  let step1 := qrec
  let step2 :=
    if a.is_anomaly = true ∧ (a.severity = Severity.MEDIUM ∨ a.severity = Severity.HIGH)
    then Tier.MANUAL_APPROVAL else step1
  if a.is_anomaly = true ∧ a.severity = Severity.HIGH
  then Tier.BLOCK_DEPLOYMENT else step2

/-- Fallback score as the specification words it (§4.3): the sum of
independently-weighted, field-present-only contributions, missing fields
contributing zero, clamped to [0,1]. -/
def specFallbackScore (m : MetricRecord) : ℚ :=
  min 1 (max 0
    ((m.security_vulnerabilities.elim 0 fun v => min (v / 10) 1 * 0.6) +
     (m.risk_score.elim 0 fun rs => min (rs / 100) 1 * 0.3) +
     (m.test_pass_rate.elim 0 fun t => (1 - t) * 0.1)))

/-- The sample deployment record of the spec scenario. -/
def sampleRecord : MetricRecord :=
  { test_pass_rate := some 0.95, code_coverage := some 0.85,
    security_vulnerabilities := some 1, code_complexity := some 3.5,
    lines_of_code := some 2500, deployment_frequency := some 15 }

/-- A loaded quality classifier answering success probability 0.5. -/
def cexClassifier : Classifier :=
  { pred := fun _ => 0, predict_proba := fun _ => 0.5 }

/-- A loaded anomaly classifier answering anomaly probability 0.7. -/
def cexAnomalyModel : AnomalyModel := fun _ => Except.ok 0.7

/-- C1 counterexample: with quality recommendation BLOCK_DEPLOYMENT and an
anomaly of severity MEDIUM (is_anomaly true), the fuser rewrites the final
recommendation to MANUAL_APPROVAL — strictly lower risk than the quality
baseline — and the combination is reachable end-to-end: a comprehensive
prediction with a quality classifier answering 0.5 and an anomaly classifier
answering 0.7 lowers BLOCK_DEPLOYMENT to MANUAL_APPROVAL. -/
theorem fuser_lowers_risk_cex :
    tierRank (fuseDecision
        { success_prediction := 0, success_probability := 0.1,
          recommendation := Tier.BLOCK_DEPLOYMENT }
        { is_anomaly := true, severity := Severity.MEDIUM,
          score := 0.55 }).final_recommendation <
      tierRank Tier.BLOCK_DEPLOYMENT ∧
    (fuseDecision
        { success_prediction := 0, success_probability := 0.1,
          recommendation := Tier.BLOCK_DEPLOYMENT }
        { is_anomaly := true, severity := Severity.MEDIUM,
          score := 0.55 }).final_recommendation = Tier.MANUAL_APPROVAL ∧
    (∃ d : FinalDecision,
      predict_comprehensive (some cexClassifier) (some cexAnomalyModel) sampleRecord =
        .ok d ∧
      d.quality_prediction.recommendation = Tier.BLOCK_DEPLOYMENT ∧
      d.final_recommendation = Tier.MANUAL_APPROVAL ∧
      tierRank d.final_recommendation < tierRank d.quality_prediction.recommendation) := by
  refine ⟨by decide, by decide, ?_⟩
  have hq : getRecommendation 0.5 = Tier.BLOCK_DEPLOYMENT := by
    unfold getRecommendation; rw [if_neg (by norm_num), if_neg (by norm_num)]
  have hquality : qualityPredict (some cexClassifier) sampleRecord =
      .ok { success_prediction := 0, success_probability := 0.5,
            recommendation := Tier.BLOCK_DEPLOYMENT } := by
    have e : qualityPredict (some cexClassifier) sampleRecord =
        .ok { success_prediction := 0, success_probability := 0.5,
              recommendation := getRecommendation 0.5 } := rfl
    rw [e, hq]
  have hsev : modelPathResult (0.7 : ℚ) =
      { is_anomaly := true, severity := Severity.MEDIUM, score := 0.7 } := by
    unfold modelPathResult
    norm_num
  have ha : detect (some cexAnomalyModel) sampleRecord =
      { is_anomaly := true, severity := Severity.MEDIUM, score := 0.7 } :=
    (rfl : detect (some cexAnomalyModel) sampleRecord = modelPathResult 0.7).trans hsev
  have hfull : predict_comprehensive (some cexClassifier) (some cexAnomalyModel)
        sampleRecord =
      .ok (fuseDecision
            { success_prediction := 0, success_probability := 0.5,
              recommendation := Tier.BLOCK_DEPLOYMENT }
            { is_anomaly := true, severity := Severity.MEDIUM, score := 0.7 }) := by
    unfold predict_comprehensive
    rw [hquality, ha]
  exact ⟨_, hfull, rfl, rfl, by decide⟩

/-- C1 amended: the fuser never lowers risk relative to the quality baseline
except in the single case quality.recommendation = BLOCK_DEPLOYMENT with an
anomaly of severity MEDIUM (is_anomaly true), where it downgrades to
MANUAL_APPROVAL; in every other case
tierRank quality.recommendation ≤ tierRank final_recommendation. -/
theorem fuser_never_lowers_risk (q : QualityResult) (a : AnomalyResult)
    (h : ¬(q.recommendation = Tier.BLOCK_DEPLOYMENT ∧ a.is_anomaly = true ∧
           a.severity = Severity.MEDIUM)) :
    tierRank q.recommendation ≤ tierRank (fuseDecision q a).final_recommendation := by
  rcases q with ⟨sp, prob, rec⟩
  rcases a with ⟨ia, sev, s⟩
  cases ia <;> cases sev <;> cases rec <;>
    simp_all [fuseDecision, tierRank] <;> decide

/-- Witness for the amended C1 at a concrete input. -/
theorem fuser_never_lowers_risk_witness :
    tierRank Tier.AUTO_DEPLOY ≤
      tierRank (fuseDecision
          { success_prediction := 1, success_probability := 0.9,
            recommendation := Tier.AUTO_DEPLOY }
          { is_anomaly := true, severity := Severity.MEDIUM,
            score := 0.55 }).final_recommendation :=
  fuser_never_lowers_risk
    { success_prediction := 1, success_probability := 0.9,
      recommendation := Tier.AUTO_DEPLOY }
    { is_anomaly := true, severity := Severity.MEDIUM, score := 0.55 }
    (by decide)

/-- C2: the Decision Fuser computes exactly the spec's escalation cascade —
baseline quality recommendation, MANUAL_APPROVAL on a MEDIUM/HIGH anomaly,
BLOCK_DEPLOYMENT on a HIGH anomaly, both conditions independent — and returns
confidence equal to the quality success probability, untouched by the anomaly
score. -/
theorem fuseDecision_eq_spec (q : QualityResult) (a : AnomalyResult) :
    fuseDecision q a =
      { quality_prediction := q
        anomaly_detection := a
        final_recommendation := specFuseRecommendation q.recommendation a
        confidence := q.success_probability } := by
  rcases q with ⟨sp, prob, rec⟩
  rcases a with ⟨ia, sev, s⟩
  cases ia <;> cases sev <;> cases rec <;>
    simp [fuseDecision, specFuseRecommendation] <;> decide

/-- C3: with no model loaded, every quality prediction call fails with the
model-not-trained error and produces no result; there is no fallback. -/
theorem qualityPredict_untrained (m : MetricRecord) :
    qualityPredict none m = .error QError.modelNotTrained := rfl

/-- C4: for every probability in [0,1] the recommendation tiering is a total,
non-overlapping partition at exact boundaries 0.70 and 0.85, boundary values
belonging to the higher tier. -/
theorem getRecommendation_partition (p : ℚ) (hlo : 0 ≤ p) (hhi : p ≤ 1) :
    (getRecommendation p = Tier.AUTO_DEPLOY ↔ p ≥ 0.85) ∧
    (getRecommendation p = Tier.MANUAL_APPROVAL ↔ 0.70 ≤ p ∧ p < 0.85) ∧
    (getRecommendation p = Tier.BLOCK_DEPLOYMENT ↔ p < 0.70) ∧
    getRecommendation 0.85 = Tier.AUTO_DEPLOY ∧
    getRecommendation 0.70 = Tier.MANUAL_APPROVAL := by
  have b1 : getRecommendation 0.85 = Tier.AUTO_DEPLOY := by
    unfold getRecommendation; rw [if_pos (by norm_num)]
  have b2 : getRecommendation 0.70 = Tier.MANUAL_APPROVAL := by
    unfold getRecommendation; rw [if_neg (by norm_num), if_pos (by norm_num)]
  by_cases hA : p ≥ (0.85 : ℚ)
  · have e : getRecommendation p = Tier.AUTO_DEPLOY := by
      unfold getRecommendation; rw [if_pos hA]
    rw [e]
    exact ⟨iff_of_true rfl hA,
           iff_of_false (by decide) (fun hc => absurd hA (not_le.mpr hc.2)),
           iff_of_false (by decide)
             (fun hc => absurd hA (not_le.mpr (hc.trans (by norm_num)))),
           b1, b2⟩
  · by_cases hM : p ≥ (0.70 : ℚ)
    · have e : getRecommendation p = Tier.MANUAL_APPROVAL := by
        unfold getRecommendation; rw [if_neg hA, if_pos hM]
      rw [e]
      exact ⟨iff_of_false (by decide) (fun hc => absurd hc hA),
             iff_of_true rfl ⟨hM, not_le.mp hA⟩,
             iff_of_false (by decide) (fun hc => absurd hM (not_le.mpr hc)),
             b1, b2⟩
    · have e : getRecommendation p = Tier.BLOCK_DEPLOYMENT := by
        unfold getRecommendation; rw [if_neg hA, if_neg hM]
      rw [e]
      exact ⟨iff_of_false (by decide) (fun hc => absurd hc hA),
             iff_of_false (by decide) (fun hc => absurd hc.1 hM),
             iff_of_true rfl (not_le.mp hM),
             b1, b2⟩

/-- Witness for C4 at the boundary probability 0.85. -/
theorem getRecommendation_partition_witness :
    getRecommendation 0.85 = Tier.AUTO_DEPLOY :=
  ((getRecommendation_partition 0.85 (by norm_num) (by norm_num)).1).mpr (by norm_num)

/-- The clamp to [0,1] written in the two equivalent orders. -/
theorem clip_comm (s t : ℚ) (h : s = t) :
    min (max s 0) 1 = min 1 (max 0 t) := by
  subst h; rw [min_comm, max_comm]

/-- C5: the rule-based fallback anomaly score is the clamped sum of
independently-weighted, field-present-only contributions — missing fields
contribute zero and never raise — and on the record with only
test_pass_rate = 0.9 it yields score 0.01, is_anomaly false, severity LOW. -/
theorem fallback_score_formula (m : MetricRecord) :
    (ruleBasedFallback m).score = specFallbackScore m ∧
    ruleBasedFallback { test_pass_rate := some 0.9 } =
      { is_anomaly := false, severity := Severity.LOW, score := 0.01 } := by
  constructor
  · rcases m with ⟨tpr, cc, sv, cx, loc, dfreq, rs⟩
    rcases sv with _ | v <;> rcases rs with _ | r <;> rcases tpr with _ | t <;>
      · simp only [ruleBasedFallback, fallbackResultOfScore, fallbackScore,
                   specFallbackScore, Option.elim]
        exact clip_comm _ _ (by ring)
  · norm_num [ruleBasedFallback, fallbackScore, fallbackResultOfScore,
              min_def, max_def]

/-- C6: on the rule-based fallback path is_anomaly iff score > 0.4, severity
HIGH iff score > 0.75, MEDIUM iff 0.5 < score ≤ 0.75, else LOW; on the
model-backed path is_anomaly iff score > 0.5, HIGH iff score > 0.8, MEDIUM
iff 0.6 < score ≤ 0.8, else LOW — the two mappings differ. -/
theorem anomaly_threshold_maps (s : ℚ) :
    ((fallbackResultOfScore s).is_anomaly = true ↔ s > 0.4) ∧
    ((fallbackResultOfScore s).severity = Severity.HIGH ↔ s > 0.75) ∧
    ((fallbackResultOfScore s).severity = Severity.MEDIUM ↔ 0.5 < s ∧ s ≤ 0.75) ∧
    ((fallbackResultOfScore s).severity = Severity.LOW ↔ s ≤ 0.5) ∧
    ((modelPathResult s).is_anomaly = true ↔ s > 0.5) ∧
    ((modelPathResult s).severity = Severity.HIGH ↔ s > 0.8) ∧
    ((modelPathResult s).severity = Severity.MEDIUM ↔ 0.6 < s ∧ s ≤ 0.8) ∧
    ((modelPathResult s).severity = Severity.LOW ↔ s ≤ 0.6) := by
  simp only [fallbackResultOfScore, modelPathResult, decide_eq_true_eq]
  refine ⟨trivial, ?_, ?_, ?_, trivial, ?_, ?_, ?_⟩
  · by_cases h1 : s > (0.75 : ℚ)
    · rw [if_pos h1]; exact iff_of_true rfl h1
    · rw [if_neg h1]
      by_cases h2 : s > (0.5 : ℚ)
      · rw [if_pos h2]; exact iff_of_false (by decide) h1
      · rw [if_neg h2]; exact iff_of_false (by decide) h1
  · by_cases h1 : s > (0.75 : ℚ)
    · rw [if_pos h1]
      exact iff_of_false (by decide) (fun hc => absurd h1 (not_lt.mpr hc.2))
    · rw [if_neg h1]
      by_cases h2 : s > (0.5 : ℚ)
      · rw [if_pos h2]; exact iff_of_true rfl ⟨h2, not_lt.mp h1⟩
      · rw [if_neg h2]; exact iff_of_false (by decide) (fun hc => absurd hc.1 h2)
  · by_cases h1 : s > (0.75 : ℚ)
    · rw [if_pos h1]
      exact iff_of_false (by decide)
        (fun hc => absurd h1 (not_lt.mpr (hc.trans (by norm_num))))
    · rw [if_neg h1]
      by_cases h2 : s > (0.5 : ℚ)
      · rw [if_pos h2]
        exact iff_of_false (by decide) (fun hc => absurd h2 (not_lt.mpr hc))
      · rw [if_neg h2]; exact iff_of_true rfl (not_lt.mp h2)
  · by_cases h1 : s > (0.8 : ℚ)
    · rw [if_pos h1]; exact iff_of_true rfl h1
    · rw [if_neg h1]
      by_cases h2 : s > (0.6 : ℚ)
      · rw [if_pos h2]; exact iff_of_false (by decide) h1
      · rw [if_neg h2]; exact iff_of_false (by decide) h1
  · by_cases h1 : s > (0.8 : ℚ)
    · rw [if_pos h1]
      exact iff_of_false (by decide) (fun hc => absurd h1 (not_lt.mpr hc.2))
    · rw [if_neg h1]
      by_cases h2 : s > (0.6 : ℚ)
      · rw [if_pos h2]; exact iff_of_true rfl ⟨h2, not_lt.mp h1⟩
      · rw [if_neg h2]; exact iff_of_false (by decide) (fun hc => absurd hc.1 h2)
  · by_cases h1 : s > (0.8 : ℚ)
    · rw [if_pos h1]
      exact iff_of_false (by decide)
        (fun hc => absurd h1 (not_lt.mpr (hc.trans (by norm_num))))
    · rw [if_neg h1]
      by_cases h2 : s > (0.6 : ℚ)
      · rw [if_pos h2]
        exact iff_of_false (by decide) (fun hc => absurd h2 (not_lt.mpr hc))
      · rw [if_neg h2]; exact iff_of_true rfl (not_lt.mp h2)

/-- A model whose invocation always fails, standing for any raised exception. -/
def failingModel : AnomalyModel := fun _ => Except.error "predict_proba raised"

/-- C7: anomaly evaluation never fails — whenever the model-backed classifier
invocation errors, the error is not propagated and the call answers with the
rule-based fallback result. -/
theorem detect_fallback_on_error (f : AnomalyModel) (m : MetricRecord) (e : String)
    (h : f m = .error e) : detect (some f) m = ruleBasedFallback m := by
  have e1 : detect (some f) m =
      match f m with
      | .ok score => modelPathResult score
      | .error _ => ruleBasedFallback m := rfl
  rw [e1, h]

/-- Witness for C7: a concretely failing model falls back. -/
theorem detect_fallback_on_error_witness :
    detect (some failingModel) {} = ruleBasedFallback {} :=
  detect_fallback_on_error failingModel {} "predict_proba raised" rfl

/-- C8: on a record containing the four required metrics the Feature Deriver
computes exactly the fixed weighted quality and risk formulas, and
code_complexity is not clamped — large values push quality_score negative. -/
theorem prepare_features_formulas (m : MetricRecord) (tpr cc sv cx loc dfreq : ℚ)
    (h1 : m.test_pass_rate = some tpr) (h2 : m.code_coverage = some cc)
    (h3 : m.security_vulnerabilities = some sv) (h4 : m.code_complexity = some cx)
    (h5 : m.lines_of_code = some loc) (h6 : m.deployment_frequency = some dfreq) :
    ∃ X : Features, prepare_features m = some X ∧
      X.quality_score =
        0.3 * tpr + 0.25 * cc + 0.25 * (1 - min (sv / 10) 1) + 0.2 * (1 - cx / 10) ∧
      X.risk_score = 0.4 * sv + 30 * (1 - tpr) + 20 * (1 - cc) + 0.1 * cx ∧
      (∃ Y : Features,
        prepare_features
            { test_pass_rate := some 1, code_coverage := some 1,
              security_vulnerabilities := some 0, code_complexity := some 60,
              lines_of_code := some 0, deployment_frequency := some 0 } = some Y ∧
        Y.quality_score < 0) := by
  unfold prepare_features
  rw [h1, h2, h3, h4, h5, h6]
  exact ⟨_, rfl, by ring, by ring, ⟨_, rfl, by norm_num [min_def]⟩⟩

/-- Witness for C8 at a fully-populated concrete record. -/
theorem prepare_features_formulas_witness :
    ∃ X : Features,
      prepare_features
          { test_pass_rate := some 0.95, code_coverage := some 0.85,
            security_vulnerabilities := some 1, code_complexity := some 3.5,
            lines_of_code := some 2500, deployment_frequency := some 15 } = some X ∧
      X.quality_score =
        0.3 * 0.95 + 0.25 * 0.85 + 0.25 * (1 - min ((1 : ℚ) / 10) 1) +
          0.2 * (1 - 3.5 / 10) ∧
      X.risk_score = 0.4 * 1 + 30 * (1 - 0.95) + 20 * (1 - 0.85) + 0.1 * 3.5 ∧
      (∃ Y : Features,
        prepare_features
            { test_pass_rate := some 1, code_coverage := some 1,
              security_vulnerabilities := some 0, code_complexity := some 60,
              lines_of_code := some 0, deployment_frequency := some 0 } = some Y ∧
        Y.quality_score < 0) :=
  prepare_features_formulas _ 0.95 0.85 1 3.5 2500 15 rfl rfl rfl rfl rfl rfl

/-- C9 counterexample: on the scenario record the derived features are
quality_score = 0.8525 and risk_score = 5.25, not approximately 0.9225 and
2.15 as claimed — both claimed values are off by far more than any rounding
tolerance. -/
theorem sample_features_cex :
    ∃ X : Features, prepare_features sampleRecord = some X ∧
      X.quality_score = 0.8525 ∧ X.risk_score = 5.25 ∧
      ¬(X.quality_score = 0.9225) ∧ ¬(X.risk_score = 2.15) ∧
      X.quality_score < 0.9225 - 0.05 ∧ 2.15 + 3 < X.risk_score := by
  refine ⟨_, rfl, ?_, ?_, ?_, ?_, ?_, ?_⟩ <;> norm_num [sampleRecord, min_def]

/-- C9 amended: on the scenario record the Feature Deriver yields
quality_score = 0.8525 and risk_score = 5.25. -/
theorem sample_features_values :
    ∃ X : Features, prepare_features sampleRecord = some X ∧
      X.quality_score = 0.8525 ∧ X.risk_score = 5.25 :=
  ⟨_, rfl, by norm_num [sampleRecord, min_def], by norm_num [sampleRecord]⟩

/-- On the fallback mapping, a non-anomalous result has severity LOW. -/
theorem fallback_low_of_not_anomaly (s : ℚ)
    (h : (fallbackResultOfScore s).is_anomaly = false) :
    (fallbackResultOfScore s).severity = Severity.LOW := by
  have h' : decide (s > (0.4 : ℚ)) = false := h
  have hs : ¬ s > (0.4 : ℚ) := of_decide_eq_false h'
  have h75 : ¬ s > (0.75 : ℚ) := fun hc => hs (by linarith)
  have h5 : ¬ s > (0.5 : ℚ) := fun hc => hs (by linarith)
  show (if s > (0.75 : ℚ) then Severity.HIGH
        else if s > (0.5 : ℚ) then Severity.MEDIUM else Severity.LOW) = Severity.LOW
  rw [if_neg h75, if_neg h5]

/-- On the model-backed mapping, a non-anomalous result has severity LOW. -/
theorem model_low_of_not_anomaly (s : ℚ)
    (h : (modelPathResult s).is_anomaly = false) :
    (modelPathResult s).severity = Severity.LOW := by
  have h' : decide (s > (0.5 : ℚ)) = false := h
  have hs : ¬ s > (0.5 : ℚ) := of_decide_eq_false h'
  have h8 : ¬ s > (0.8 : ℚ) := fun hc => hs (by linarith)
  have h6 : ¬ s > (0.6 : ℚ) := fun hc => hs (by linarith)
  show (if s > (0.8 : ℚ) then Severity.HIGH
        else if s > (0.6 : ℚ) then Severity.MEDIUM else Severity.LOW) = Severity.LOW
  rw [if_neg h8, if_neg h6]

/-- C10: on both anomaly paths, a returned result that is not flagged as an
anomaly has severity LOW — equivalently, MEDIUM or HIGH severity implies the
anomaly flag — because on each path the MEDIUM threshold strictly exceeds
that path's is_anomaly threshold. -/
theorem detect_not_anomaly_low (model : Option AnomalyModel) (m : MetricRecord)
    (h : (detect model m).is_anomaly = false) :
    (detect model m).severity = Severity.LOW := by
  cases model with
  | none => exact fallback_low_of_not_anomaly (fallbackScore m) h
  | some f =>
    have e0 : detect (some f) m =
        match f m with
        | .ok score => modelPathResult score
        | .error _ => ruleBasedFallback m := rfl
    cases hf : f m with
    | ok s =>
      rw [e0, hf] at h ⊢
      exact model_low_of_not_anomaly s h
    | error err =>
      rw [e0, hf] at h ⊢
      exact fallback_low_of_not_anomaly (fallbackScore m) h

/-- Witness for C10 on the empty record with no model loaded. -/
theorem detect_not_anomaly_low_witness :
    (detect none ({} : MetricRecord)).severity = Severity.LOW :=
  detect_not_anomaly_low none {} (by
    show (ruleBasedFallback {}).is_anomaly = false
    norm_num [ruleBasedFallback, fallbackScore, fallbackResultOfScore,
              min_def, max_def])
